import Mathlib

/-!
Verification of the ui69 component library and its CLI installer.

The development shallowly embeds the decision logic of the repository:
the CLI `add`/`init` commands (src/cli/index.js), the controlled/uncontrolled
state handling of the Checkbox, Select, Drawer and CheckboxGroup components,
the toast provider bookkeeping, the swipe-to-dismiss thresholds of the toast
and drawer, the select dropdown position computation and the variant/size
style lookup tables. Fractional JavaScript numbers are embedded as rationals;
the in-memory filesystem of the CLI is an association list from paths to file
contents.
-/

namespace UI69

/-! ## Filesystem model for the CLI -/

/-- An in-memory filesystem: an association list from paths to file contents.
The head entry for a path is its current content. -/
abbrev FS := List (String × String)

/-- Look up the content of a path. -/
def fsLookup (fs : FS) (p : String) : Option String :=
  (fs.find? (fun e => e.1 == p)).map Prod.snd

/-- Existence check, mirroring fs.existsSync. -/
def fsHas (fs : FS) (p : String) : Bool :=
  (fsLookup fs p).isSome

/-- Write a file, overwriting any previous content (fs.writeFile / fs.copy). -/
def fsWrite (fs : FS) (p c : String) : FS :=
  (p, c) :: fs.filter (fun e => e.1 != p)

theorem fsLookup_fsWrite_self (fs : FS) (p c : String) :
    fsLookup (fsWrite fs p c) p = some c := by
  simp [fsLookup, fsWrite, List.find?]

/-! ## The component registry (src/cli/index.js, getComponentsConfig) -/

/-- A source/destination file pair of a registry entry. Source paths are
registry-relative: the runtime COMPONENT_DIR prefix (derived from __dirname)
is elided. -/
structure RegistryFile where
  src : String
  dest : String
deriving DecidableEq, Repr

/-- A registry entry: display name, description, dependency list and files. -/
structure ComponentEntry where
  name : String
  description : String
  dependencies : List String
  files : List RegistryFile
deriving DecidableEq, Repr

/-- The closed component registry returned by getComponentsConfig. -/
def componentsConfig : List (String × ComponentEntry) := [
  ("alert",
   { name := "Alert",
     description := "Alert component with multiple variants, icons, titles, descriptions, and action support",
     dependencies := [],
     files := [{ src := "ui/alert.tsx", dest := "components/ui/alert.tsx" }] }),
  ("button",
   { name := "Button",
     description := "Button component with multiple variants and sizes",
     dependencies := [],
     files := [{ src := "ui/button.tsx", dest := "components/ui/button.tsx" }] }),
  ("checkbox",
   { name := "Checkbox",
     description := "Checkbox input with multiple variants, group support, indeterminate state, and professional SVG icons",
     dependencies := ["react-native-svg"],
     files := [{ src := "ui/checkbox.tsx", dest := "components/ui/checkbox.tsx" }] }),
  ("radio",
   { name := "Radio",
     description := "Radio button component with group management, multiple variants, and single-selection logic",
     dependencies := [],
     files := [{ src := "ui/radio.tsx", dest := "components/ui/radio.tsx" }] }),
  ("switch",
   { name := "Switch",
     description := "Toggle switch component with smooth animations, multiple variants, and group support",
     dependencies := [],
     files := [{ src := "ui/switch.tsx", dest := "components/ui/switch.tsx" }] }),
  ("skeleton",
   { name := "Skeleton",
     description := "Skeleton loading component with shimmer and wave animations",
     dependencies := ["react-native-reanimated", "expo-linear-gradient"],
     files := [{ src := "ui/skeleton.tsx", dest := "components/ui/skeleton.tsx" }] }),
  ("seperator",
   { name := "Seperator",
     description := "Seperator component for dividing content",
     dependencies := [],
     files := [{ src := "ui/seperator.tsx", dest := "components/ui/seperator.tsx" }] }),
  ("card",
   { name := "Card",
     description := "Container component with default and warning variants, plus header, content and footer sections",
     dependencies := [],
     files := [{ src := "ui/card.tsx", dest := "components/ui/card.tsx" }] }),
  ("badge",
   { name := "Badge",
     description := "Small status indicator with multiple variants and dot style option",
     dependencies := [],
     files := [{ src := "ui/badge.tsx", dest := "components/ui/badge.tsx" }] }),
  ("avatar",
   { name := "Avatar",
     description := "User profile image component with fallback, status indicators, and grouping support",
     dependencies := [],
     files := [{ src := "ui/avatar.tsx", dest := "components/ui/avatar.tsx" }] }),
  ("accordion",
   { name := "Accordion",
     description := "Collapsible content sections with customizable styling and animations",
     dependencies := [],
     files := [{ src := "ui/accordion.tsx", dest := "components/ui/accordion.tsx" }] }),
  ("input-otp",
   { name := "InputOTP",
     description := "One-time password input component with support for different input types, patterns, and custom dimensions",
     dependencies := [],
     files := [{ src := "ui/input-otp.tsx", dest := "components/ui/input-otp.tsx" }] }),
  ("input",
   { name := "Input",
     description := "Text input component with multiple variants, validation, and icon support",
     dependencies := [],
     files := [{ src := "ui/input.tsx", dest := "components/ui/input.tsx" }] }),
  ("toast",
   { name := "Toast",
     description := "Toast notifications with animations, gestures, and multiple variants",
     dependencies := ["react-native-reanimated", "react-native-gesture-handler", "react-native-safe-area-context"],
     files := [{ src := "ui/toast.tsx", dest := "components/ui/toast.tsx" }] }),
  ("select",
   { name := "Select",
     description := "Select dropdown component with smooth animations and positioning",
     dependencies := ["react-native-safe-area-context", "react-native-svg"],
     files := [{ src := "ui/select.tsx", dest := "components/ui/select.tsx" }] }),
  ("drawer",
   { name := "Drawer",
     description := "Customizable drawer/sheet component with gesture support, smooth animations, and custom dimensions",
     dependencies := ["react-native-safe-area-context", "react-native-gesture-handler"],
     files := [{ src := "ui/drawer.tsx", dest := "components/ui/drawer.tsx" }] })
]

/-- Registry lookup, mirroring the components[component] access. -/
def lookupRegistry (key : String) : Option ComponentEntry :=
  (componentsConfig.find? (fun e => e.1 == key)).map Prod.snd

/-! ## The init command (src/cli/index.js, initializeProject) -/

/-- The theme configuration template written by init. The literal is
abbreviated: only its identity as one fixed constant matters for the
theorems, none of which inspect its text. -/
def THEME_CONFIG_TEMPLATE : String :=
  "// theme.config.ts template"

/-- The initializeProject command. When theme.config.ts already exists the
user is prompted; overwriteResponse is the answer to that confirm prompt
(consulted only in that case). Otherwise the template is written directly. -/
def initializeProject (fs : FS) (overwriteResponse : Bool) : FS :=
  if fsHas fs "theme.config.ts" then
    if overwriteResponse then
      fsWrite fs "theme.config.ts" THEME_CONFIG_TEMPLATE
    else
      fs
  else
    fsWrite fs "theme.config.ts" THEME_CONFIG_TEMPLATE

/-! ## The add command (src/cli/index.js, installComponent) -/

/-- Result of a CLI invocation: exit code (some code when the process exited
early via process.exit), the resulting project filesystem, and console logs. -/
structure CliResult where
  exitCode : Option Nat
  fs : FS
  logs : List String
deriving DecidableEq, Repr

/-- The listing of valid registry keys printed on an unknown component key. -/
def availableComponentsListing : String :=
  String.intercalate "\n" (componentsConfig.map (fun e => "  - " ++ e.1))

/-- Console output produced for an unknown component key. -/
def unknownComponentLogs (component : String) : List String :=
  ["Component " ++ component ++ " not found.",
   "Available components:\n" ++ availableComponentsListing]

/-- The file-copy loop of installComponent: each declared source file is read
from the package filesystem and written verbatim (fs.copy) to its destination
in the project; a missing source is fatal. -/
def copyFiles (sourceFs : FS) : List RegistryFile → FS → CliResult
  | [], fs => { exitCode := none, fs := fs, logs := [] }
  | f :: rest, fs =>
    match fsLookup sourceFs f.src with
    | none =>
      { exitCode := some 1, fs := fs, logs := ["Source file not found: " ++ f.src] }
    | some content =>
      copyFiles sourceFs rest (fsWrite fs f.dest content)

/-- The installComponent command. The registry is consulted first: an unknown
key prints the valid keys and exits with code 1 before any filesystem write.
For a known key, when theme.config.ts is absent the user is asked whether to
run init first (initFirstResponse); then every declared file is copied
verbatim. No project-language detection and no source transformation occurs
anywhere on this path. -/
def installComponent (sourceFs projectFs : FS) (initFirstResponse : Bool)
    (component : String) : CliResult :=
  match lookupRegistry component with
  | none =>
    { exitCode := some 1, fs := projectFs, logs := unknownComponentLogs component }
  | some config =>
    let fs1 :=
      if fsHas projectFs "theme.config.ts" then projectFs
      else if initFirstResponse then initializeProject projectFs true
      else projectFs
    copyFiles sourceFs config.files fs1

/-! ## Spec-modelled parts absent from the source tree -/

/-- Modelled from the spec: the consumer-project language detection the spec
attributes to the installer (a TypeScript config file or TypeScript-related
dependencies in the package manifest). No such check exists in the add path
of src/cli/index.js. -/
def isTypeScriptProject (fs : FS) : Bool :=
  fsHas fs "tsconfig.json"

/-- Split a character list into newline-separated lines (accumulator holds
the current line reversed). -/
def splitLinesAux : List Char → List Char → List String
  | [], acc => [String.mk acc.reverse]
  | c :: cs, acc =>
    if c = '\n' then String.mk acc.reverse :: splitLinesAux cs []
    else splitLinesAux cs (c :: acc)

/-- Split a string into its lines. -/
def splitLines (s : String) : List String :=
  splitLinesAux s.data []

/-- Join lines with newlines. -/
def joinLines : List String → String
  | [] => ""
  | [l] => l
  | l :: ls => l ++ "\n" ++ joinLines ls

/-- Character-list prefix test. -/
def charsStartWith : List Char → List Char → Bool
  | [], _ => true
  | _ :: _, [] => false
  | a :: as, b :: bs => a == b && charsStartWith as bs

/-- Does a line open an interface declaration. -/
def lineStartsInterface (l : String) : Bool :=
  charsStartWith "interface ".data l.data ||
    charsStartWith "export interface ".data l.data

/-- Helper for the spec-modelled transform: drop the lines of interface
blocks (from a line starting an interface declaration through the closing
brace line). -/
def stripInterfaceBlocks : List String → Bool → List String
  | [], _ => []
  | l :: ls, true =>
    if l = "\x7d" then stripInterfaceBlocks ls false
    else stripInterfaceBlocks ls true
  | l :: ls, false =>
    if lineStartsInterface l then stripInterfaceBlocks ls true
    else l :: stripInterfaceBlocks ls false

/-- Modelled from the spec: the textual TS-to-JS downgrade transform the spec
says the installer applies for JavaScript-only projects (stripping interface
blocks, parameter type annotations, generic arguments, type-only imports and
TypeScript comments). It is absent from the source tree; only its
interface-block stripping is modelled here, which already distinguishes the
transformed output from the original on any source containing an interface
block. -/
def tsToJsTransform (src : String) : String :=
  joinLines (stripInterfaceBlocks (splitLines src) false)

/-! ## Controlled/uncontrolled state handling

Each component keeps internal state initialized from its default-value prop
and treats a supplied value prop (checked / open / value) as the source of
truth when present. Handlers are embedded as pure functions from the
relevant props and state to the new internal state plus the list of callback
invocations they perform. -/

/-- Result of one Checkbox toggle (src/components/ui/checkbox.tsx,
handleToggle): the new internal state, the arguments of the onCheckedChange
calls made, and the number of onPress calls made. -/
structure CheckboxToggleResult where
  internal : Bool
  checkedChangeCalls : List Bool
  pressCalls : Nat
deriving DecidableEq, Repr

/-- The rendered checked value: the controlled prop when supplied, the
internal state otherwise (isChecked in the source). -/
def checkboxIsChecked (controlledChecked : Option Bool) (internal : Bool) : Bool :=
  controlledChecked.getD internal

/-- One Checkbox toggle (handleToggle). Disabled or readOnly presses are
ignored; otherwise the displayed value is negated, internal state is updated
only in uncontrolled mode, and onCheckedChange then onPress are invoked. -/
def checkboxToggle (controlledChecked : Option Bool) (disabled readOnly : Bool)
    (internal : Bool) : CheckboxToggleResult :=
  if disabled || readOnly then
    { internal := internal, checkedChangeCalls := [], pressCalls := 0 }
  else
    let newChecked := !(checkboxIsChecked controlledChecked internal)
    { internal := if controlledChecked.isNone then newChecked else internal,
      checkedChangeCalls := [newChecked],
      pressCalls := 1 }

/-- Internal state after a number of successive Checkbox toggles. -/
def runCheckboxToggles (controlledChecked : Option Bool) (disabled readOnly : Bool) :
    Nat → Bool → Bool
  | 0, internal => internal
  | n + 1, internal =>
    runCheckboxToggles controlledChecked disabled readOnly n
      (checkboxToggle controlledChecked disabled readOnly internal).internal

/-- Result of one Select value change (src/components/ui/select.tsx,
handleValueChange): new internal value, new open flag, and the arguments of
the onValueChange calls made. -/
structure SelectChangeResult where
  internalValue : Option String
  isOpen : Bool
  valueChangeCalls : List String
deriving DecidableEq, Repr

/-- The current Select value (currentValue in the source). -/
def selectCurrentValue (controlledValue internalValue : Option String) : Option String :=
  if controlledValue.isSome then controlledValue else internalValue

/-- One Select value change (handleValueChange): internal state is updated
only in uncontrolled mode, onValueChange is invoked with the new value, and
the dropdown is closed. -/
def selectHandleValueChange (controlledValue internalValue : Option String)
    (newValue : String) : SelectChangeResult :=
  { internalValue := if controlledValue.isNone then some newValue else internalValue,
    isOpen := false,
    valueChangeCalls := [newValue] }

/-- Internal Select value after a sequence of chosen values. -/
def runSelectChanges (controlledValue : Option String) :
    List String → Option String → Option String
  | [], internal => internal
  | v :: vs, internal =>
    runSelectChanges controlledValue vs
      (selectHandleValueChange controlledValue internal v).internalValue

/-- Result of one Drawer open change (src/unnamed/part_002, Drawer,
handleOpenChange): new internal open state and the arguments of the
onOpenChange calls made. -/
structure DrawerOpenChangeResult where
  internalOpen : Bool
  openChangeCalls : List Bool
deriving DecidableEq, Repr

/-- The rendered Drawer open value (isOpen in the source). -/
def drawerIsOpen (controlledOpen : Option Bool) (internal : Bool) : Bool :=
  controlledOpen.getD internal

/-- One Drawer open change (handleOpenChange): internal state is updated only
in uncontrolled mode, and onOpenChange is invoked with the requested value. -/
def drawerHandleOpenChange (controlledOpen : Option Bool) (internal : Bool)
    (o : Bool) : DrawerOpenChangeResult :=
  { internalOpen := if controlledOpen.isNone then o else internal,
    openChangeCalls := [o] }

/-- Internal Drawer open state after a sequence of requested open values. -/
def runDrawerOpenChanges (controlledOpen : Option Bool) :
    List Bool → Bool → Bool
  | [], internal => internal
  | o :: os, internal =>
    runDrawerOpenChanges controlledOpen os
      (drawerHandleOpenChange controlledOpen internal o).internalOpen

/-- The current CheckboxGroup value (currentValue in the source). -/
def groupCurrentValue (controlledValue : Option (List String))
    (internal : List String) : List String :=
  controlledValue.getD internal

/-- One CheckboxGroup item change (src/components/ui/checkbox.tsx,
CheckboxGroup, handleValueChange): the chosen item is appended to or removed
from the current value, internal state is updated only in uncontrolled mode,
and onValueChange is invoked with the new list. -/
def groupHandleValueChange (controlledValue : Option (List String))
    (internal : List String) (itemValue : String) (checked : Bool) :
    List String × List (List String) :=
  let currentValue := groupCurrentValue controlledValue internal
  let newValue :=
    if checked then currentValue ++ [itemValue]
    else currentValue.filter (fun v => v != itemValue)
  (if controlledValue.isNone then newValue else internal, [newValue])

/-- Internal CheckboxGroup value after a sequence of item changes. -/
def runGroupChanges (controlledValue : Option (List String)) :
    List (String × Bool) → List String → List String
  | [], internal => internal
  | e :: es, internal =>
    runGroupChanges controlledValue es
      (groupHandleValueChange controlledValue internal e.1 e.2).1

/-! ## Toast provider bookkeeping (src/components/ui/toast.tsx) -/

/-- The toast variants (keys of TOAST_VARIANTS). -/
inductive ToastVariant
  | default
  | success
  | error
  | warning
  | info
deriving DecidableEq, Repr

/-- A held toast (ToastData). Presentational fields carrying no logic
(action, icon, styles) are elided; the id is assigned by addToast. -/
structure ToastData where
  id : String
  title : Option String
  description : Option String
  variant : ToastVariant
  duration : ℚ
  persistent : Bool
deriving DecidableEq, Repr

/-- The argument of addToast: a toast without its id. -/
structure ToastInput where
  title : Option String
  description : Option String
  variant : Option ToastVariant
  duration : Option ℚ
  persistent : Bool
deriving DecidableEq, Repr

/-- The toast record addToast builds: defaults duration 2000 and variant
default, plus the freshly generated id. -/
def mkToast (id : String) (t : ToastInput) : ToastData :=
  { id := id,
    title := t.title,
    description := t.description,
    variant := t.variant.getD .default,
    duration := t.duration.getD 2000,
    persistent := t.persistent }

/-- addToast: prepend the new toast (newest first), truncate the list to
maxToasts entries, and return the id assigned to the added toast. The id
string is generated from the clock and a random suffix at runtime; it is a
parameter here. -/
def addToast (maxToasts : Nat) (prev : List ToastData) (id : String)
    (t : ToastInput) : List ToastData × String :=
  ((mkToast id t :: prev).take maxToasts, id)

/-- removeToast: drop the toast with the given id. -/
def removeToast (id : String) (toasts : List ToastData) : List ToastData :=
  toasts.filter (fun t => t.id != id)

/-- One provider operation: an addToast call (with its generated id) or a
removeToast call. -/
inductive ToastOp
  | add (id : String) (t : ToastInput)
  | remove (id : String)
deriving Repr

/-- The toast list after a sequence of provider operations. -/
def runToastOps (maxToasts : Nat) : List ToastOp → List ToastData → List ToastData
  | [], toasts => toasts
  | .add id t :: ops, toasts =>
    runToastOps maxToasts ops (addToast maxToasts toasts id t).1
  | .remove id :: ops, toasts =>
    runToastOps maxToasts ops (removeToast id toasts)

/-! ## Swipe-to-dismiss thresholds -/

/-- Outcome of a toast pan-gesture end (src/components/ui/toast.tsx,
handleStateChange): a dismissal animating to the given translateX target,
or a spring back to the given rest target. -/
inductive ToastSwipeOutcome
  | dismissed (toValue : ℚ)
  | springBack (toValue : ℚ)
deriving DecidableEq, Repr

/-- Toast gesture end handling: dismiss when the absolute translation exceeds
100 or the absolute velocity exceeds 800, sliding out toward the swipe
direction; otherwise spring the offset back to 0. -/
def toastHandleStateChange (screenWidth translationX velocityX : ℚ) :
    ToastSwipeOutcome :=
  if |translationX| > 100 ∨ |velocityX| > 800 then
    .dismissed (if translationX > 0 then screenWidth else -screenWidth)
  else
    .springBack 0

/-- The drawer sides (keys of drawerVariants.side). -/
inductive DrawerSide
  | top
  | bottom
  | left
  | right
deriving DecidableEq, Repr

/-- Outcome of a drawer pan-gesture end (src/unnamed/part_002,
handleStateChange): closing the drawer, springing the gesture offset back to
the given rest target, or ignoring the gesture. -/
inductive DrawerSwipeOutcome
  | closed
  | springBack (toValue : ℚ)
  | ignored
deriving DecidableEq, Repr

/-- Drawer gesture end handling: only a dismissible bottom drawer reacts;
it closes when the signed downward translation exceeds 100 or the signed
downward velocity exceeds 1000, and otherwise springs the offset back to 0. -/
def drawerHandleStateChange (side : DrawerSide) (dismissible : Bool)
    (translationY velocityY : ℚ) : DrawerSwipeOutcome :=
  if side = .bottom ∧ dismissible then
    if translationY > 100 ∨ velocityY > 1000 then .closed
    else .springBack 0
  else
    .ignored

/-! ## Select dropdown positioning (src/components/ui/select.tsx,
SelectContent measurement effect) -/

/-- Safe-area insets. -/
structure Insets where
  top : ℚ
  bottom : ℚ
  left : ℚ
  right : ℚ
deriving DecidableEq, Repr

/-- A measured trigger rectangle in window coordinates. -/
structure Rect where
  x : ℚ
  y : ℚ
  w : ℚ
  h : ℚ
deriving DecidableEq, Repr

/-- The computed dropdown position state. -/
structure DropdownPos where
  top : ℚ
  left : ℚ
  width : ℚ
  showAbove : Bool
deriving DecidableEq, Repr

/-- The dropdown position computation: available space above and below the
trigger is measured against the screen, the 200-pixel dropdown is placed
below when it fits there or the space below exceeds the space above and
above otherwise, the width is the trigger width with a 200-pixel minimum,
and the left coordinate starts at the trigger and is clamped first against
the right screen edge and then against the left one with a 16-pixel margin. -/
def computeDropdownPosition (screenW screenH : ℚ) (insets : Insets)
    (trigger : Rect) : DropdownPos :=
  let spaceBelow := screenH - (trigger.y + trigger.h) - insets.bottom - 20
  let spaceAbove := trigger.y - insets.top - 20
  let dropdownHeight : ℚ := 200
  let margin : ℚ := 16
  let minWidth : ℚ := 200
  let dropdownWidth := max trigger.w minWidth
  let left1 :=
    if trigger.x + dropdownWidth > screenW - margin then
      screenW - dropdownWidth - margin
    else trigger.x
  let finalLeft := if left1 < margin then margin else left1
  if spaceBelow ≥ dropdownHeight ∨ spaceBelow > spaceAbove then
    { top := trigger.y + trigger.h + 4, left := finalLeft,
      width := dropdownWidth, showAbove := false }
  else
    { top := max (insets.top + 20) (trigger.y - dropdownHeight - 4),
      left := finalLeft, width := dropdownWidth, showAbove := true }

/-! ## Context-accessor hooks

Each hook reads its React context, throws synchronously when no provider
ancestor supplied a value, and returns the context value otherwise. The
context read is embedded as an Option argument and the throw as Except. -/

/-- useSelect (src/components/ui/select.tsx). -/
def useSelect {α : Type} (ctx : Option α) : Except String α :=
  match ctx with
  | none => .error "useSelect must be used within a Select component"
  | some v => .ok v

/-- useToast (src/components/ui/toast.tsx). -/
def useToast {α : Type} (ctx : Option α) : Except String α :=
  match ctx with
  | none => .error "useToast must be used within a ToastProvider"
  | some v => .ok v

/-- useDrawer (src/unnamed/part_002). -/
def useDrawer {α : Type} (ctx : Option α) : Except String α :=
  match ctx with
  | none => .error "useDrawer must be used within a Drawer component"
  | some v => .ok v

/-- useDrawerContent (src/unnamed/part_002). -/
def useDrawerContent {α : Type} (ctx : Option α) : Except String α :=
  match ctx with
  | none => .error "useDrawerContent must be used within a DrawerContent component"
  | some v => .ok v

/-- useAccordion (src/components/ui/accordion.tsx). -/
def useAccordion {α : Type} (ctx : Option α) : Except String α :=
  match ctx with
  | none => .error "useAccordion must be used within an Accordion component"
  | some v => .ok v

/-- useAccordionItem (src/components/ui/accordion.tsx). -/
def useAccordionItem {α : Type} (ctx : Option α) : Except String α :=
  match ctx with
  | none => .error "useAccordionItem must be used within an AccordionItem component"
  | some v => .ok v

/-- useAlertDialog (src/components/ui/alert-dialog.tsx). -/
def useAlertDialog {α : Type} (ctx : Option α) : Except String α :=
  match ctx with
  | none => .error "useAlertDialog must be used within an AlertDialog component"
  | some v => .ok v

/-- useAlert (src/components/ui/alert.tsx). -/
def useAlert {α : Type} (ctx : Option α) : Except String α :=
  match ctx with
  | none => .error "useAlert must be used within an Alert component"
  | some v => .ok v

/-- useInputOTPContext (src/unnamed/part_005). -/
def useInputOTPContext {α : Type} (ctx : Option α) : Except String α :=
  match ctx with
  | none => .error "useInputOTPContext must be used within an InputOTP component"
  | some v => .ok v

/-! ## Theme configuration (src/theme.config.ts) -/

/-- The LightTheme record: semantic color token names to color values. -/
structure LightTheme where
  background : String
  foreground : String
  card : String
  cardForeground : String
  popover : String
  popoverForeground : String
  primary : String
  primaryForeground : String
  secondary : String
  secondaryForeground : String
  muted : String
  mutedForeground : String
  accent : String
  accentForeground : String
  destructive : String
  destructiveForeground : String
  border : String
  input : String
  ring : String
deriving DecidableEq, Repr

/-- The default light theme values. -/
def lightTheme : LightTheme :=
  { background := "#ffffff",
    foreground := "#0a0a0a",
    card := "#ffffff",
    cardForeground := "#0a0a0a",
    popover := "#ffffff",
    popoverForeground := "#0a0a0a",
    primary := "#171717",
    primaryForeground := "#fafafa",
    secondary := "#f5f5f5",
    secondaryForeground := "#171717",
    muted := "#f5f5f5",
    mutedForeground := "#737373",
    accent := "#f5f5f5",
    accentForeground := "#171717",
    destructive := "#ef4444",
    destructiveForeground := "#fafafa",
    border := "#e5e5e5",
    input := "#e5e5e5",
    ring := "#171717" }

/-- The design-token radii. -/
structure RadiusTokens where
  sm : ℚ
  md : ℚ
  lg : ℚ
  xl : ℚ
deriving DecidableEq, Repr

/-- The radius values. -/
def radius : RadiusTokens :=
  { sm := 4, md := 6, lg := 8, xl := 12 }

/-- The active theme. -/
def currentTheme : LightTheme := lightTheme

/-! ## Button variant/size tables (src/components/ui/button.tsx) -/

/-- The button variant keys. -/
inductive ButtonVariant
  | default
  | destructive
  | outline
  | secondary
  | ghost
  | link
deriving DecidableEq, Repr

/-- The button size keys. -/
inductive ButtonSize
  | default
  | sm
  | lg
  | icon
deriving DecidableEq, Repr

/-- A button variant style record. Shadow and text-decoration fields are
optional because the ghost and link variants omit the shadow fields and only
the link variant carries text decoration. -/
structure ButtonVariantStyle where
  backgroundColor : String
  textColor : String
  borderWidth : ℚ
  borderColor : String
  shadowOpacity : Option ℚ
  shadowRadius : Option ℚ
  shadowOffsetWidth : Option ℚ
  shadowOffsetHeight : Option ℚ
  textDecorationLine : Option String
  textDecorationStyle : Option String
  textDecorationColor : Option String
deriving DecidableEq, Repr

/-- A button size style record; fields absent for a size are none
(width/padding appear only for icon, gap only for sm). -/
structure ButtonSizeStyle where
  height : ℚ
  width : Option ℚ
  paddingHorizontal : Option ℚ
  paddingVertical : Option ℚ
  padding : Option ℚ
  borderRadius : ℚ
  gap : Option ℚ
  iconPaddingHorizontal : Option ℚ
  fontSize : ℚ
  iconSize : ℚ
deriving DecidableEq, Repr

/-- The button lookup tables as a pair of maps from key to style record. -/
structure ButtonTables where
  variant : ButtonVariant → ButtonVariantStyle
  size : ButtonSize → ButtonSizeStyle

/-- The buttonVariants tables. -/
def buttonVariants : ButtonTables :=
  { variant := fun v =>
      match v with
      | .default =>
        { backgroundColor := currentTheme.primary,
          textColor := currentTheme.primaryForeground,
          borderWidth := 0,
          borderColor := "transparent",
          shadowOpacity := some 0.1,
          shadowRadius := some 2,
          shadowOffsetWidth := some 0,
          shadowOffsetHeight := some 1,
          textDecorationLine := none,
          textDecorationStyle := none,
          textDecorationColor := none }
      | .destructive =>
        { backgroundColor := currentTheme.destructive,
          textColor := currentTheme.destructiveForeground,
          borderWidth := 0,
          borderColor := "transparent",
          shadowOpacity := some 0.1,
          shadowRadius := some 2,
          shadowOffsetWidth := some 0,
          shadowOffsetHeight := some 1,
          textDecorationLine := none,
          textDecorationStyle := none,
          textDecorationColor := none }
      | .outline =>
        { backgroundColor := currentTheme.background,
          textColor := currentTheme.foreground,
          borderWidth := 1,
          borderColor := currentTheme.border,
          shadowOpacity := some 0.1,
          shadowRadius := some 2,
          shadowOffsetWidth := some 0,
          shadowOffsetHeight := some 1,
          textDecorationLine := none,
          textDecorationStyle := none,
          textDecorationColor := none }
      | .secondary =>
        { backgroundColor := currentTheme.secondary,
          textColor := currentTheme.secondaryForeground,
          borderWidth := 0,
          borderColor := "transparent",
          shadowOpacity := some 0.1,
          shadowRadius := some 2,
          shadowOffsetWidth := some 0,
          shadowOffsetHeight := some 1,
          textDecorationLine := none,
          textDecorationStyle := none,
          textDecorationColor := none }
      | .ghost =>
        { backgroundColor := "transparent",
          textColor := currentTheme.foreground,
          borderWidth := 0,
          borderColor := "transparent",
          shadowOpacity := none,
          shadowRadius := none,
          shadowOffsetWidth := none,
          shadowOffsetHeight := none,
          textDecorationLine := none,
          textDecorationStyle := none,
          textDecorationColor := none }
      | .link =>
        { backgroundColor := "transparent",
          textColor := currentTheme.primary,
          borderWidth := 0,
          borderColor := "transparent",
          shadowOpacity := none,
          shadowRadius := none,
          shadowOffsetWidth := none,
          shadowOffsetHeight := none,
          textDecorationLine := some "underline",
          textDecorationStyle := some "solid",
          textDecorationColor := some currentTheme.primary },
    size := fun s =>
      match s with
      | .default =>
        { height := 36,
          width := none,
          paddingHorizontal := some 16,
          paddingVertical := some 8,
          padding := none,
          borderRadius := radius.md,
          gap := none,
          iconPaddingHorizontal := some 12,
          fontSize := 14,
          iconSize := 16 }
      | .sm =>
        { height := 32,
          width := none,
          paddingHorizontal := some 12,
          paddingVertical := some 6,
          padding := none,
          borderRadius := radius.md,
          gap := some 6,
          iconPaddingHorizontal := some 10,
          fontSize := 12,
          iconSize := 14 }
      | .lg =>
        { height := 40,
          width := none,
          paddingHorizontal := some 24,
          paddingVertical := some 10,
          padding := none,
          borderRadius := radius.md,
          gap := none,
          iconPaddingHorizontal := some 16,
          fontSize := 16,
          iconSize := 18 }
      | .icon =>
        { height := 36,
          width := some 36,
          paddingHorizontal := none,
          paddingVertical := none,
          padding := some 0,
          borderRadius := radius.md,
          gap := none,
          iconPaddingHorizontal := none,
          fontSize := 14,
          iconSize := 16 } }

/-- Resolve a button style from its tables: a pure table lookup. -/
def resolveButtonStyle (t : ButtonTables) (v : ButtonVariant) (s : ButtonSize) :
    ButtonVariantStyle × ButtonSizeStyle :=
  (t.variant v, t.size s)

/-- One button render resolves its style from the tables; the tables are
threaded through to make any mutation observable, and come back unchanged. -/
def buttonRenderResolve (t : ButtonTables) (v : ButtonVariant) (s : ButtonSize) :
    (ButtonVariantStyle × ButtonSizeStyle) × ButtonTables :=
  (resolveButtonStyle t v s, t)

/-! ## Checkbox variant/size tables (src/components/ui/checkbox.tsx) -/

/-- The checkbox variant keys. -/
inductive CheckboxVariant
  | default
  | destructive
  | outline
  | secondary
  | success
deriving DecidableEq, Repr

/-- The checkbox size keys. -/
inductive CheckboxSize
  | sm
  | md
  | lg
deriving DecidableEq, Repr

/-- A checkbox variant style record. -/
structure CheckboxVariantStyle where
  backgroundColor : String
  borderColor : String
  checkedBackgroundColor : String
  checkedBorderColor : String
  checkColor : String
  textColor : String
  disabledBackgroundColor : String
  disabledBorderColor : String
  disabledTextColor : String
  focusBorderColor : String
  errorBorderColor : String
deriving DecidableEq, Repr

/-- A checkbox size style record. -/
structure CheckboxSizeStyle where
  width : ℚ
  height : ℚ
  borderRadius : ℚ
  borderWidth : ℚ
  fontSize : ℚ
  checkSize : ℚ
  gap : ℚ
deriving DecidableEq, Repr

/-- The checkbox lookup tables. -/
structure CheckboxTables where
  variant : CheckboxVariant → CheckboxVariantStyle
  size : CheckboxSize → CheckboxSizeStyle

/-- The checkboxVariants tables (hard-coded shadcn palette). -/
def checkboxVariants : CheckboxTables :=
  { variant := fun v =>
      match v with
      | .default =>
        { backgroundColor := "#ffffff",
          borderColor := "#e4e4e7",
          checkedBackgroundColor := "#18181b",
          checkedBorderColor := "#18181b",
          checkColor := "#fafafa",
          textColor := "#09090b",
          disabledBackgroundColor := "#fafafa",
          disabledBorderColor := "#e4e4e7",
          disabledTextColor := "#a1a1aa",
          focusBorderColor := "#18181b",
          errorBorderColor := "#ef4444" }
      | .destructive =>
        { backgroundColor := "#ffffff",
          borderColor := "#e4e4e7",
          checkedBackgroundColor := "#ef4444",
          checkedBorderColor := "#ef4444",
          checkColor := "#fef2f2",
          textColor := "#09090b",
          disabledBackgroundColor := "#fafafa",
          disabledBorderColor := "#e4e4e7",
          disabledTextColor := "#a1a1aa",
          focusBorderColor := "#ef4444",
          errorBorderColor := "#ef4444" }
      | .outline =>
        { backgroundColor := "transparent",
          borderColor := "#e4e4e7",
          checkedBackgroundColor := "transparent",
          checkedBorderColor := "#18181b",
          checkColor := "#18181b",
          textColor := "#09090b",
          disabledBackgroundColor := "transparent",
          disabledBorderColor := "#e4e4e7",
          disabledTextColor := "#a1a1aa",
          focusBorderColor := "#18181b",
          errorBorderColor := "#ef4444" }
      | .secondary =>
        { backgroundColor := "#ffffff",
          borderColor := "#e4e4e7",
          checkedBackgroundColor := "#f4f4f5",
          checkedBorderColor := "#e4e4e7",
          checkColor := "#09090b",
          textColor := "#09090b",
          disabledBackgroundColor := "#fafafa",
          disabledBorderColor := "#e4e4e7",
          disabledTextColor := "#a1a1aa",
          focusBorderColor := "#18181b",
          errorBorderColor := "#ef4444" }
      | .success =>
        { backgroundColor := "#ffffff",
          borderColor := "#e4e4e7",
          checkedBackgroundColor := "#22c55e",
          checkedBorderColor := "#22c55e",
          checkColor := "#ffffff",
          textColor := "#09090b",
          disabledBackgroundColor := "#fafafa",
          disabledBorderColor := "#e4e4e7",
          disabledTextColor := "#a1a1aa",
          focusBorderColor := "#22c55e",
          errorBorderColor := "#ef4444" },
    size := fun s =>
      match s with
      | .sm =>
        { width := 16, height := 16, borderRadius := 4, borderWidth := 1,
          fontSize := 14, checkSize := 10, gap := 8 }
      | .md =>
        { width := 20, height := 20, borderRadius := 6, borderWidth := 2,
          fontSize := 14, checkSize := 12, gap := 12 }
      | .lg =>
        { width := 24, height := 24, borderRadius := 8, borderWidth := 2,
          fontSize := 16, checkSize := 14, gap := 16 } }

/-- Resolve a checkbox style from its tables: a pure table lookup. -/
def resolveCheckboxStyle (t : CheckboxTables) (v : CheckboxVariant)
    (s : CheckboxSize) : CheckboxVariantStyle × CheckboxSizeStyle :=
  (t.variant v, t.size s)

/-- One checkbox render resolves its style from the tables; the tables are
threaded through and come back unchanged. -/
def checkboxRenderResolve (t : CheckboxTables) (v : CheckboxVariant)
    (s : CheckboxSize) :
    (CheckboxVariantStyle × CheckboxSizeStyle) × CheckboxTables :=
  (resolveCheckboxStyle t v s, t)

/-- The toggle interaction with the tables threaded through: handleToggle
never references the tables, so they come back unchanged. -/
def checkboxToggleWithTables (t : CheckboxTables) (controlledChecked : Option Bool)
    (disabled readOnly : Bool) (internal : Bool) :
    CheckboxToggleResult × CheckboxTables :=
  (checkboxToggle controlledChecked disabled readOnly internal, t)

/-! ## Concrete inputs for the installer theorems -/

/-- A TypeScript source containing an interface block, which the
spec-modelled transform changes. -/
def sampleTsSource : String :=
  "export interface ButtonProps \x7b\n    title: string;\n\x7d\nexport const Button = 1;"

/-- A package filesystem holding the button registry source. -/
def c1SourceFs : FS := [("ui/button.tsx", sampleTsSource)]

/-- A JavaScript-only consumer project: theme.config.ts present, no
tsconfig.json. -/
def c1ProjectFs : FS := [("theme.config.ts", "// theme")]

/-! ## Helper lemmas -/

theorem checkboxToggle_controlled_internal (v : Bool) (d ro b : Bool) :
    (checkboxToggle (some v) d ro b).internal = b := by
  unfold checkboxToggle
  split <;> simp

theorem runCheckboxToggles_controlled (v : Bool) (d ro : Bool) :
    ∀ (n : Nat) (b : Bool), runCheckboxToggles (some v) d ro n b = b := by
  intro n
  induction n with
  | zero => intro b; rfl
  | succ n ih =>
    intro b
    rw [runCheckboxToggles, checkboxToggle_controlled_internal, ih]

theorem runSelectChanges_controlled (c : String) :
    ∀ (events : List String) (internal : Option String),
      runSelectChanges (some c) events internal = internal := by
  intro events
  induction events with
  | nil => intro internal; rfl
  | cons v vs ih =>
    intro internal
    rw [runSelectChanges]
    simp only [selectHandleValueChange, Option.isNone_some, Bool.false_eq_true,
      if_false]
    exact ih internal

theorem runDrawerOpenChanges_controlled (v : Bool) :
    ∀ (events : List Bool) (internal : Bool),
      runDrawerOpenChanges (some v) events internal = internal := by
  intro events
  induction events with
  | nil => intro internal; rfl
  | cons o os ih =>
    intro internal
    rw [runDrawerOpenChanges]
    simp only [drawerHandleOpenChange, Option.isNone_some, Bool.false_eq_true,
      if_false]
    exact ih internal

theorem runGroupChanges_controlled (c : List String) :
    ∀ (events : List (String × Bool)) (internal : List String),
      runGroupChanges (some c) events internal = internal := by
  intro events
  induction events with
  | nil => intro internal; rfl
  | cons e es ih =>
    intro internal
    rw [runGroupChanges]
    simp only [groupHandleValueChange, Option.isNone_some, Bool.false_eq_true,
      if_false]
    exact ih internal

theorem runToastOps_length_le (m : Nat) :
    ∀ (ops : List ToastOp) (ts : List ToastData),
      ts.length ≤ m → (runToastOps m ops ts).length ≤ m := by
  intro ops
  induction ops with
  | nil => intro ts h; exact h
  | cons op rest ih =>
    intro ts h
    cases op with
    | add id t =>
      rw [runToastOps]
      exact ih _ (by simp [addToast, List.length_take])
    | remove id =>
      rw [runToastOps]
      exact ih _ (le_trans (List.length_filter_le _ _) h)

/-! ## Claim theorems -/

/-- C1 counterexample: in a JavaScript-only project (no tsconfig.json), the
installer still writes the destination byte-identical to the registry source
even though the spec-modelled TS-to-JS transform would have changed it, so
the claimed detect-and-transform behavior does not hold. -/
theorem c1_counterexample :
    isTypeScriptProject c1ProjectFs = false ∧
    fsLookup (installComponent c1SourceFs c1ProjectFs true "button").fs
      "components/ui/button.tsx" = some sampleTsSource ∧
    tsToJsTransform sampleTsSource ≠ sampleTsSource := by
  refine ⟨rfl, rfl, ?_⟩
  decide

/-- C1 amended: for every registered component key whose single declared
source file is present, the installer succeeds and writes the destination
file byte-identical to the registry source, for every consumer project
filesystem alike — no TypeScript/JavaScript detection and no TS-to-JS
transform occurs in the add path. -/
theorem c1_install_copies_verbatim (sourceFs projectFs : FS) (r : Bool)
    (key : String) (entry : ComponentEntry) (f : RegistryFile) (content : String)
    (hk : lookupRegistry key = some entry)
    (hf : entry.files = [f])
    (hc : fsLookup sourceFs f.src = some content) :
    (installComponent sourceFs projectFs r key).exitCode = none ∧
    fsLookup (installComponent sourceFs projectFs r key).fs f.dest = some content := by
  unfold installComponent
  rw [hk]
  constructor
  · simp [hf, copyFiles, hc]
  · simp [hf, copyFiles, hc, fsLookup_fsWrite_self]

/-- C1 witness: the amended theorem applied at the concrete counterexample
project. -/
theorem c1_witness :
    (installComponent c1SourceFs c1ProjectFs true "button").exitCode = none ∧
    fsLookup (installComponent c1SourceFs c1ProjectFs true "button").fs
      "components/ui/button.tsx" = some sampleTsSource :=
  c1_install_copies_verbatim c1SourceFs c1ProjectFs true "button"
    { name := "Button",
      description := "Button component with multiple variants and sizes",
      dependencies := [],
      files := [{ src := "ui/button.tsx", dest := "components/ui/button.tsx" }] }
    { src := "ui/button.tsx", dest := "components/ui/button.tsx" }
    sampleTsSource rfl rfl rfl

/-- C2: an unknown component key makes the add command exit with code 1 after
logging the listing of valid keys, leaving the project filesystem untouched. -/
theorem c2_unknown_component_no_write (sourceFs projectFs : FS) (r : Bool)
    (component : String) (h : lookupRegistry component = none) :
    installComponent sourceFs projectFs r component =
      { exitCode := some 1, fs := projectFs,
        logs := unknownComponentLogs component } := by
  unfold installComponent
  rw [h]

/-- C2 witness: the key dialog is not registered and installing it exits with
code 1 without touching the filesystem. -/
theorem c2_witness :
    lookupRegistry "dialog" = none ∧
    installComponent [] [("a.txt", "a")] true "dialog" =
      { exitCode := some 1, fs := [("a.txt", "a")],
        logs := unknownComponentLogs "dialog" } :=
  ⟨rfl, c2_unknown_component_no_write [] [("a.txt", "a")] true "dialog" rfl⟩

/-- C3: with a supplied value prop (controlled mode) the rendered/reported
value of Checkbox, Select, Drawer and CheckboxGroup always equals that prop
across any sequence of interactions, and no handler mutates the internal
state away from its initial value. -/
theorem c3_controlled_never_diverges :
    (∀ (v d ro : Bool) (n : Nat) (b : Bool),
      runCheckboxToggles (some v) d ro n b = b ∧
      checkboxIsChecked (some v) (runCheckboxToggles (some v) d ro n b) = v) ∧
    (∀ (c : String) (events : List String) (internal : Option String),
      runSelectChanges (some c) events internal = internal ∧
      selectCurrentValue (some c) (runSelectChanges (some c) events internal) = some c) ∧
    (∀ (v : Bool) (events : List Bool) (internal : Bool),
      runDrawerOpenChanges (some v) events internal = internal ∧
      drawerIsOpen (some v) (runDrawerOpenChanges (some v) events internal) = v) ∧
    (∀ (c : List String) (events : List (String × Bool)) (internal : List String),
      runGroupChanges (some c) events internal = internal ∧
      groupCurrentValue (some c) (runGroupChanges (some c) events internal) = c) := by
  refine ⟨fun v d ro n b => ⟨runCheckboxToggles_controlled v d ro n b, ?_⟩,
    fun c events internal => ⟨runSelectChanges_controlled c events internal, ?_⟩,
    fun v events internal => ⟨runDrawerOpenChanges_controlled v events internal, ?_⟩,
    fun c events internal => ⟨runGroupChanges_controlled c events internal, ?_⟩⟩
  · simp [checkboxIsChecked]
  · simp [selectCurrentValue]
  · simp [drawerIsOpen]
  · simp [groupCurrentValue]

/-- C4: an uncontrolled, enabled, non-readOnly toggle flips the internal
state exactly once and invokes the change callback exactly once with the new
value (Checkbox handleToggle; Select handleValueChange reports the chosen
value exactly once and stores it). -/
theorem c4_uncontrolled_toggle_once :
    (∀ b : Bool, checkboxToggle none false false b =
      { internal := !b, checkedChangeCalls := [!b], pressCalls := 1 }) ∧
    (∀ (internal : Option String) (v : String),
      selectHandleValueChange none internal v =
        { internalValue := some v, isOpen := false, valueChangeCalls := [v] }) := by
  constructor
  · intro b; simp [checkboxToggle, checkboxIsChecked]
  · intro internal v; simp [selectHandleValueChange]

/-- C5 counterexample: an upward swipe of 150 pixels on a dismissible bottom
drawer has translation distance above 100 yet is not dismissed, refuting the
claimed if-and-only-if on translation distance for the drawer. -/
theorem c5_counterexample :
    ¬ ((drawerHandleStateChange .bottom true (-150) 0 = .closed) ↔
       (|(-150 : ℚ)| > 100 ∨ |(0 : ℚ)| > 1000)) := by
  intro hiff
  have hrun : drawerHandleStateChange .bottom true (-150) 0 = .springBack 0 := by
    unfold drawerHandleStateChange
    norm_num
  have habs : |(-150 : ℚ)| > 100 := by
    rw [abs_of_nonpos (by norm_num)]
    norm_num
  have hclosed := hiff.mpr (Or.inl habs)
  rw [hrun] at hclosed
  exact absurd hclosed (by simp)

/-- C5 amended: a toast is dismissed exactly when its absolute translation
exceeds 100 or its absolute velocity exceeds 800, springing back to offset 0
otherwise; a dismissible bottom drawer closes exactly when the signed
downward translation exceeds 100 or the signed downward velocity exceeds
1000 (upward swipes never dismiss), springing back to offset 0 otherwise. -/
theorem c5_swipe_dismiss_thresholds : ∀ (sw tx vx ty vy : ℚ),
    ((∃ d, toastHandleStateChange sw tx vx = .dismissed d) ↔
      (|tx| > 100 ∨ |vx| > 800)) ∧
    (toastHandleStateChange sw tx vx = .springBack 0 ↔
      ¬(|tx| > 100 ∨ |vx| > 800)) ∧
    ((drawerHandleStateChange .bottom true ty vy = .closed) ↔
      (ty > 100 ∨ vy > 1000)) ∧
    ((drawerHandleStateChange .bottom true ty vy = .springBack 0) ↔
      ¬(ty > 100 ∨ vy > 1000)) := by
  intro sw tx vx ty vy
  by_cases ht : |tx| > 100 ∨ |vx| > 800 <;>
    by_cases hd : ty > 100 ∨ vy > 1000 <;>
      simp [toastHandleStateChange, drawerHandleStateChange, ht, hd]

/-- C6 counterexample: with a 390-pixel-wide screen and a 400-pixel-wide
trigger the dropdown width is 400 and the clamped left coordinate is 16, so
the right edge ends at 416, past the 374-pixel right-margin line: the
claimed 16-pixel clearance from both screen edges fails. -/
theorem c6_counterexample :
    (computeDropdownPosition 390 800
      { top := 0, bottom := 0, left := 0, right := 0 }
      { x := 0, y := 100, w := 400, h := 40 }).left = 16 ∧
    (computeDropdownPosition 390 800
      { top := 0, bottom := 0, left := 0, right := 0 }
      { x := 0, y := 100, w := 400, h := 40 }).width = 400 ∧
    (computeDropdownPosition 390 800
      { top := 0, bottom := 0, left := 0, right := 0 }
      { x := 0, y := 100, w := 400, h := 40 }).left +
    (computeDropdownPosition 390 800
      { top := 0, bottom := 0, left := 0, right := 0 }
      { x := 0, y := 100, w := 400, h := 40 }).width > 390 - 16 := by
  have heval : computeDropdownPosition 390 800
      { top := 0, bottom := 0, left := 0, right := 0 }
      { x := 0, y := 100, w := 400, h := 40 } =
      { top := 144, left := 16, width := 400, showAbove := false } := by
    unfold computeDropdownPosition
    norm_num [max_def]
  rw [heval]
  norm_num

/-- C6 amended: the dropdown is placed below exactly when the space below
fits the 200-pixel dropdown or exceeds the space above; its width is the
trigger width with a 200-pixel minimum; the left coordinate is clamped first
against the right screen edge and then against the left one, so it always
keeps a 16-pixel margin from the left edge, and keeps the 16-pixel margin
from the right edge whenever the dropdown width is at most the screen width
minus 32. -/
theorem c6_dropdown_position (screenW screenH : ℚ) (insets : Insets)
    (trigger : Rect) :
    ((computeDropdownPosition screenW screenH insets trigger).showAbove = false ↔
      (screenH - (trigger.y + trigger.h) - insets.bottom - 20 ≥ 200 ∨
       screenH - (trigger.y + trigger.h) - insets.bottom - 20 >
         trigger.y - insets.top - 20)) ∧
    (computeDropdownPosition screenW screenH insets trigger).width =
      max trigger.w 200 ∧
    16 ≤ (computeDropdownPosition screenW screenH insets trigger).left ∧
    ((computeDropdownPosition screenW screenH insets trigger).width ≤
        screenW - 32 →
      (computeDropdownPosition screenW screenH insets trigger).left +
        (computeDropdownPosition screenW screenH insets trigger).width ≤
          screenW - 16) := by
  have hwEq : (computeDropdownPosition screenW screenH insets trigger).width =
      max trigger.w 200 := by
    unfold computeDropdownPosition
    dsimp only
    split_ifs <;> rfl
  have hplace : (computeDropdownPosition screenW screenH insets trigger).showAbove
      = false ↔
      (screenH - (trigger.y + trigger.h) - insets.bottom - 20 ≥ 200 ∨
       screenH - (trigger.y + trigger.h) - insets.bottom - 20 >
         trigger.y - insets.top - 20) := by
    unfold computeDropdownPosition
    dsimp only
    split_ifs <;> simp_all
  have hleft : 16 ≤ (computeDropdownPosition screenW screenH insets trigger).left := by
    unfold computeDropdownPosition
    dsimp only
    split_ifs <;> dsimp only <;> linarith
  have hright : (computeDropdownPosition screenW screenH insets trigger).width ≤
      screenW - 32 →
      (computeDropdownPosition screenW screenH insets trigger).left +
        (computeDropdownPosition screenW screenH insets trigger).width ≤
          screenW - 16 := by
    rw [hwEq]
    intro hw
    unfold computeDropdownPosition
    dsimp only
    split_ifs <;> dsimp only <;> linarith
  exact ⟨hplace, hwEq, hleft, hright⟩

/-- C6 witness: the amended theorem applied to a concrete narrow trigger on a
390-pixel screen, where the right-margin hypothesis holds. -/
theorem c6_witness :
    16 ≤ (computeDropdownPosition 390 800
      { top := 0, bottom := 0, left := 0, right := 0 }
      { x := 10, y := 100, w := 100, h := 40 }).left ∧
    (computeDropdownPosition 390 800
      { top := 0, bottom := 0, left := 0, right := 0 }
      { x := 10, y := 100, w := 100, h := 40 }).left +
    (computeDropdownPosition 390 800
      { top := 0, bottom := 0, left := 0, right := 0 }
      { x := 10, y := 100, w := 100, h := 40 }).width ≤ 390 - 16 :=
  ⟨(c6_dropdown_position 390 800
      { top := 0, bottom := 0, left := 0, right := 0 }
      { x := 10, y := 100, w := 100, h := 40 }).2.2.1,
   (c6_dropdown_position 390 800
      { top := 0, bottom := 0, left := 0, right := 0 }
      { x := 10, y := 100, w := 100, h := 40 }).2.2.2
     (by unfold computeDropdownPosition; dsimp only;
         split_ifs <;> norm_num [max_def])⟩

/-- C7: every context-accessor hook throws synchronously when no provider
ancestor supplied a context value, and returns the provider value unchanged
when one did. -/
theorem c7_hooks_require_provider : ∀ (α : Type) (v : α),
    @useSelect α none = .error "useSelect must be used within a Select component" ∧
    useSelect (some v) = .ok v ∧
    @useToast α none = .error "useToast must be used within a ToastProvider" ∧
    useToast (some v) = .ok v ∧
    @useDrawer α none = .error "useDrawer must be used within a Drawer component" ∧
    useDrawer (some v) = .ok v ∧
    @useDrawerContent α none =
      .error "useDrawerContent must be used within a DrawerContent component" ∧
    useDrawerContent (some v) = .ok v ∧
    @useAccordion α none =
      .error "useAccordion must be used within an Accordion component" ∧
    useAccordion (some v) = .ok v ∧
    @useAccordionItem α none =
      .error "useAccordionItem must be used within an AccordionItem component" ∧
    useAccordionItem (some v) = .ok v ∧
    @useAlertDialog α none =
      .error "useAlertDialog must be used within an AlertDialog component" ∧
    useAlertDialog (some v) = .ok v ∧
    @useAlert α none = .error "useAlert must be used within an Alert component" ∧
    useAlert (some v) = .ok v ∧
    @useInputOTPContext α none =
      .error "useInputOTPContext must be used within an InputOTP component" ∧
    useInputOTPContext (some v) = .ok v :=
  fun _ _ => ⟨rfl, rfl, rfl, rfl, rfl, rfl, rfl, rfl, rfl, rfl, rfl, rfl, rfl,
    rfl, rfl, rfl, rfl, rfl⟩

/-- C8: style resolution is a pure table lookup — two successive renders with
the same variant and size keys resolve identical style records from the
button and checkbox tables, and neither rendering nor the toggle interaction
changes the tables. -/
theorem c8_variant_lookup_pure :
    (∀ (v : ButtonVariant) (s : ButtonSize),
      (buttonRenderResolve buttonVariants v s).1 =
        (buttonRenderResolve (buttonRenderResolve buttonVariants v s).2 v s).1 ∧
      (buttonRenderResolve buttonVariants v s).2 = buttonVariants) ∧
    (∀ (v : CheckboxVariant) (s : CheckboxSize),
      (checkboxRenderResolve checkboxVariants v s).1 =
        (checkboxRenderResolve (checkboxRenderResolve checkboxVariants v s).2 v s).1 ∧
      (checkboxRenderResolve checkboxVariants v s).2 = checkboxVariants) ∧
    (∀ (t : CheckboxTables) (c : Option Bool) (d ro b : Bool),
      (checkboxToggleWithTables t c d ro b).2 = t) :=
  ⟨fun _ _ => ⟨rfl, rfl⟩, fun _ _ => ⟨rfl, rfl⟩, fun _ _ _ _ _ => rfl⟩

/-- C9: init leaves an existing theme.config.ts byte-for-byte unchanged when
the overwrite prompt is declined, and writes the template exactly when the
file is absent or the prompt is confirmed. -/
theorem c9_init_prompt_before_overwrite : ∀ (fs : FS) (r : Bool),
    initializeProject fs r =
      if fsHas fs "theme.config.ts" && !r then fs
      else fsWrite fs "theme.config.ts" THEME_CONFIG_TEMPLATE := by
  intro fs r
  unfold initializeProject
  by_cases h : fsHas fs "theme.config.ts" <;> cases r <;> simp [h]

/-- C10: under any sequence of addToast and removeToast operations the held
toast list never exceeds maxToasts entries, and addToast prepends the new
toast, truncates to maxToasts (dropping the oldest, at the tail) and returns
the id assigned to the added toast. -/
theorem c10_toast_limit :
    (∀ (m : Nat) (ops : List ToastOp), (runToastOps m ops []).length ≤ m) ∧
    (∀ (m : Nat) (prev : List ToastData) (id : String) (t : ToastInput),
      addToast m prev id t = ((mkToast id t :: prev).take m, id)) :=
  ⟨fun m ops => runToastOps_length_le m ops [] (Nat.zero_le m),
   fun _ _ _ _ => rfl⟩

end UI69
